import Mathlib

/-!
A shallow embedding of the core logic of the Gaming Utility Bot
(`src/gaming.py`): the static device catalog `DEVICES`, the heuristic
profile synthesizer `dynamic_device_profile`, the converter
`cm360_to_sensitivity`, the profile store (`load_profiles` and the
save/load submenu actions), and the free-text conversation router
`universal_text_router`, together with theorems about their behaviour.

Modelling conventions:
* Python strings are modelled as `List Char` (written via `"...".toList`);
  `str.strip`, `str.lower`, `str.upper`, `str.isdigit`, the `in` substring
  test and `str.startswith` are modelled over this representation
  (ASCII fragment, which is all the conversation logic uses).
* Numbers are modelled with exact rationals (`ℚ`).  Python floats
  approximate these; every value appearing in a theorem below is far from
  a rounding tie, where the two agree.  `round(x, 4)` is modelled exactly,
  including Python's round-half-to-even tie rule.
* A Python expression that raises an exception is modelled with `Option`
  (`none` = the expression raises) or an explicit `Reply.crash` outcome
  for an exception that escapes the handler.
* Python dicts keyed by strings are modelled as association lists with
  first-match lookup (dict keys are unique, so the semantics agree).
-/

/-- Python dict lookup `d.get(key)` / `key in d` on a string-keyed dict
modelled as an association list (keys are unique, so first-match lookup
agrees with dict semantics). -/
def dictGet {α : Type} : List (List Char × α) → List Char → Option α
  | [], _ => none
  | (k, v) :: tl, key => if k = key then some v else dictGet tl key

/-- Python `s.lower()` (ASCII). -/
def pyLower (s : List Char) : List Char := s.map Char.toLower

/-- Python `s.upper()` (ASCII). -/
def pyUpper (s : List Char) : List Char := s.map Char.toUpper

/-- Python `s.strip()`: remove leading and trailing whitespace. -/
def pyStrip (s : List Char) : List Char :=
  ((s.dropWhile Char.isWhitespace).reverse.dropWhile Char.isWhitespace).reverse

/-- Python `pat in s` substring test. -/
def strContains : List Char → List Char → Bool
  | [], pat => pat.isEmpty
  | c :: tl, pat => pat.isPrefixOf (c :: tl) || strContains tl pat

/-- Python `s.isdigit()` over the ASCII fragment: non-empty and all
characters are decimal digits. -/
def pyIsDigit (s : List Char) : Bool := !s.isEmpty && s.all Char.isDigit

/-- Numeric value of a string of decimal digits (used only under a
`pyIsDigit` guard, where it agrees with Python `int()`). -/
def digitsToNat (cs : List Char) : ℕ := cs.foldl (fun a c => 10 * a + (c.toNat - 48)) 0

/-- Python `int(s)` for a digit string, as an integer. -/
def pyInt (s : List Char) : ℤ := (digitsToNat s : ℤ)

/-- Python `float(s)`, modelled for plain decimal literals: an optional
sign followed by digits with an optional fractional part ("30", "-4.5",
"30.", ".5").  Exponents, `inf` and `nan` are not modelled; no claim
depends on them.  `none` models `float()` raising `ValueError`. -/
def parsePyFloatCore (cs : List Char) : Option ℚ :=
  let intPart := cs.takeWhile (fun c => !(c == '.'))
  let rest := cs.dropWhile (fun c => !(c == '.'))
  match rest with
  | [] =>
      if !intPart.isEmpty && intPart.all Char.isDigit then some (digitsToNat intPart : ℚ)
      else none
  | _ :: frac =>
      if frac.any (fun c => c == '.') then none
      else if (intPart ++ frac).all Char.isDigit && !(intPart.isEmpty && frac.isEmpty) then
        some ((digitsToNat intPart : ℚ) + (digitsToNat frac : ℚ) / (10 : ℚ) ^ frac.length)
      else none

/-- Python `float(s)` with the optional leading sign. -/
def parsePyFloat (cs : List Char) : Option ℚ :=
  match cs with
  | '-' :: tl => (parsePyFloatCore tl).map (fun q => -q)
  | '+' :: tl => parsePyFloatCore tl
  | _ => parsePyFloatCore cs

/-- Floor of a rational, computed from the normalised numerator and
denominator; the denominator is positive, so Euclidean division is floor
division. -/
def ratFloor (x : ℚ) : ℤ := Int.ediv x.num (x.den : ℤ)

/-- Python `round(x, 4)`: round to four decimal places, ties to even
(Python rounds half to even).  Exact over ℚ. -/
def pyRound4 (x : ℚ) : ℚ :=
  let y := x * 10000
  let f := ratFloor y
  let r := y - (f : ℚ)
  let n : ℤ :=
    if r < 1 / 2 then f
    else if 1 / 2 < r then f + 1
    else if f % 2 = 0 then f else f + 1
  (n : ℚ) / 10000

/-- The cm/360 → in-game sensitivity converter (`cm360_to_sensitivity`).
`none` models the `ZeroDivisionError` Python raises when `inches * dpi`
is zero while `inches > 0` (only possible for `dpi = 0`).  The source's
default argument `game_scale=0.022` is passed explicitly at each call
site below. -/
def cm360_to_sensitivity (cm360 : ℚ) (dpi : ℤ) (game_scale : ℚ) : Option ℚ :=
  let inches := cm360 * 0.393701
  if 0 < inches ∧ inches * (dpi : ℚ) = 0 then none
  else
    let raw := if 0 < inches then 360 / (inches * (dpi : ℚ)) else 0
    some (pyRound4 (raw * game_scale))

/-- One game's tuning preset: an entry of a device's `presets` dict.  The
nested `recommended_in_game` dict is flattened into the `graphics` and
`fps` fields. -/
structure GamePreset where
  dpi : ℤ
  cm360_suggested : List ℚ
  graphics : List Char
  fps : List Char
  deriving DecidableEq

/-- A device profile: a value of the `DEVICES` table or the result of
`dynamic_device_profile`. -/
structure DeviceProfile where
  ram_gb : ℤ
  cpu_tier : List Char
  presets : List (List Char × GamePreset)
  internal_steps : List (List Char)
  lag_fix : List (List Char)
  deriving DecidableEq

/-- The `"poco x3"` entry of `DEVICES`. -/
def poco_x3 : DeviceProfile :=
  { ram_gb := 6
    cpu_tier := "mid".toList
    presets :=
      [("freefire".toList,
        { dpi := 480, cm360_suggested := [25, 30, 35],
          graphics := "Medium".toList, fps := "30-60 (try 40)".toList }),
       ("bgmi".toList,
        { dpi := 480, cm360_suggested := [30, 35, 40],
          graphics := "Medium".toList, fps := "30".toList }),
       ("cod".toList,
        { dpi := 480, cm360_suggested := [25, 30, 35],
          graphics := "Medium".toList, fps := "60 (if stable)".toList })]
    internal_steps :=
      ["Reboot device before starting.".toList,
       "Enable High Performance in battery settings.".toList,
       "Disable battery saver and aggressive background restrictions for the game.".toList,
       "Keep at least 3 GB free storage.".toList,
       "Turn off adaptive brightness while gaming.".toList]
    lag_fix :=
      ["Close background apps and clear cache.".toList,
       "Limit background sync and auto-updates while playing.".toList,
       "Use Wi-Fi for stable connection; check ping.".toList,
       "If overheating, lower graphics to Low/Medium.".toList] }

/-- The `"iphone 12"` entry of `DEVICES`. -/
def iphone_12 : DeviceProfile :=
  { ram_gb := 4
    cpu_tier := "high".toList
    presets :=
      [("freefire".toList,
        { dpi := 400, cm360_suggested := [18, 20, 22],
          graphics := "High".toList, fps := "60".toList }),
       ("bgmi".toList,
        { dpi := 400, cm360_suggested := [20, 22, 25],
          graphics := "High".toList, fps := "60".toList }),
       ("cod".toList,
        { dpi := 400, cm360_suggested := [18, 20, 22],
          graphics := "High".toList, fps := "60".toList })]
    internal_steps :=
      ["Close unnecessary background apps (swipe up).".toList,
       "Keep iOS updated for best performance.".toList,
       "Disable Low Power Mode while gaming.".toList,
       "Free at least 10% storage for optimal performance.".toList]
    lag_fix :=
      ["Turn off background app refresh for heavy apps.".toList,
       "Use Airplane mode + Wi-Fi to reduce mobile network interruptions.".toList,
       "If crash persists, reinstall game.".toList] }

/-- The `"oneplus 9"` entry of `DEVICES`. -/
def oneplus_9 : DeviceProfile :=
  { ram_gb := 8
    cpu_tier := "high".toList
    presets :=
      [("freefire".toList,
        { dpi := 560, cm360_suggested := [18, 22, 26],
          graphics := "High".toList, fps := "60".toList }),
       ("bgmi".toList,
        { dpi := 560, cm360_suggested := [20, 22, 24],
          graphics := "High".toList, fps := "60".toList }),
       ("cod".toList,
        { dpi := 560, cm360_suggested := [18, 20, 22],
          graphics := "High".toList, fps := "60".toList })]
    internal_steps :=
      ["Enable Performance Mode (Settings -> Battery -> Performance).".toList,
       "Disable background auto-start for unneeded apps.".toList,
       "Keep phone cool; avoid charging while gaming.".toList]
    lag_fix :=
      ["Clear game cache, reboot, and test again.".toList,
       "Reduce render distance and shadows if thermal throttling occurs.".toList] }

/-- The static device catalog `DEVICES`. -/
def DEVICES : List (List Char × DeviceProfile) :=
  [("poco x3".toList, poco_x3), ("iphone 12".toList, iphone_12), ("oneplus 9".toList, oneplus_9)]

/-- `get_device_key`: trim then lowercase a device name. -/
def get_device_key (name : List Char) : List Char := pyLower (pyStrip name)

/-- Catalog lookup: the source's `dev_key in DEVICES` test followed by
`DEVICES[dev_key]`, on the trimmed lowercased name. -/
def catalogLookup (name : List Char) : Option DeviceProfile :=
  dictGet DEVICES (get_device_key name)

/-- The low-tier keyword test of `dynamic_device_profile`. -/
def lowTierHit (dn : List Char) : Bool :=
  ["lite".toList, "y".toList, "entry".toList, "c3".toList, "a03".toList].any
    (fun k => strContains dn k)

/-- The high-tier keyword test of `dynamic_device_profile`. -/
def highTierHit (dn : List Char) : Bool :=
  ["pro".toList, "plus".toList, "max".toList, "ultra".toList, "9".toList, "8".toList,
   "7".toList, "oneplus".toList, "samsung s".toList].any (fun k => strContains dn k)

/-- The three supported game ids, in the order of the source's
`for g in ["freefire", "bgmi", "cod"]` loop. -/
def gameIds : List (List Char) := ["freefire".toList, "bgmi".toList, "cod".toList]

/-- Fallback device profile from simple name heuristics
(`dynamic_device_profile` in the source).  The source assigns `ram_gb`
and `cpu_tier` in a single if/elif/else chain; here the two fields are
computed by parallel conditionals with the same conditions.  The initial
`base_dpi = 400` of the source is dead: every tier branch overwrites it. -/
def dynamic_device_profile (device_name : List Char) : DeviceProfile :=
  let dn := pyLower device_name
  let cpu_tier := if lowTierHit dn then "low".toList
                  else if highTierHit dn then "high".toList else "mid".toList
  let ram_gb : ℤ := if lowTierHit dn then 2 else if highTierHit dn then 8 else 4
  let base_dpi : ℤ :=
    if cpu_tier = "low".toList then 360 else if cpu_tier = "mid".toList then 480 else 560
  let graphics := if cpu_tier = "low".toList then "Low/Medium".toList
                  else if cpu_tier = "mid".toList then "Medium".toList else "High".toList
  let fps := if cpu_tier = "low".toList then "30".toList
             else if cpu_tier = "mid".toList then "30-60".toList else "60".toList
  { ram_gb := ram_gb
    cpu_tier := cpu_tier
    presets :=
      [("freefire".toList,
        { dpi := base_dpi,
          cm360_suggested := if cpu_tier ≠ "high".toList then [25, 30, 35] else [18, 22, 26],
          graphics := graphics, fps := fps }),
       ("bgmi".toList,
        { dpi := base_dpi,
          cm360_suggested := if cpu_tier ≠ "high".toList then [30, 35, 40] else [20, 25, 30],
          graphics := graphics, fps := fps }),
       ("cod".toList,
        { dpi := base_dpi,
          cm360_suggested := if cpu_tier ≠ "high".toList then [25, 30, 35] else [18, 22, 26],
          graphics := graphics, fps := fps })]
    internal_steps :=
      ["Reboot before gaming.".toList,
       "Close background apps.".toList,
       "Keep at least 2-5 GB free storage.".toList,
       "Disable battery saver and aggressive background restrictions for the game.".toList,
       "Lower graphics if device heats up.".toList]
    lag_fix :=
      ["Close background apps and clear cache.".toList,
       "Use stable Wi-Fi and check ping.".toList,
       "Lower in-game graphics and FPS if needed.".toList] }

/-- A record of the profile store: the `{"device": ..., "game": ...}`
dict written by the Save Profile action.  Either field is `none` when the
session had no device/game selected (`dict.get` returning `None`). -/
structure SavedEntry where
  device : Option (List Char)
  game : Option (List Char)
  deriving DecidableEq

/-- Python `profiles[uid] = entry` on a dict modelled as an association
list: overwrite the existing binding in place, or append a new one. -/
def dictSet (l : List (List Char × SavedEntry)) (k : List Char) (e : SavedEntry) :
    List (List Char × SavedEntry) :=
  match l with
  | [] => [(k, e)]
  | (k1, v) :: tl => if k1 = k then (k1, e) :: tl else (k1, v) :: dictSet tl k e

/-- `load_profiles`: read the JSON profile store.  The backing file is
modelled as `Option (List Char)` (`none` = `profiles.json` missing) and
the JSON decoder as a function returning `none` when parsing raises.
A missing file returns `{}`; the `try/except` returns `{}` on any parse
failure. -/
def load_profiles (file : Option (List Char))
    (parseJson : List Char → Option (List (List Char × SavedEntry))) :
    List (List Char × SavedEntry) :=
  match file with
  | none => []
  | some contents =>
      match parseJson contents with
      | some profiles => profiles
      | none => []

/-- The per-user conversation state: the `context.user_data` fields the
routers read and write. -/
structure Session where
  awaiting_password : Bool
  awaiting_device : Bool
  awaiting_dpi : Bool
  awaiting_cm360 : Bool
  awaiting_problem : Bool
  unlocked : Bool
  selected_game : Option (List Char)
  device : Option (List Char)
  dpi : Option ℤ
  deriving DecidableEq

/-- The `sub_save_profile` branch of `submenu_router`: write the current
session's device and game into the profiles store under the user id. -/
def sub_save_profile (profiles : List (List Char × SavedEntry)) (uid : List Char)
    (s : Session) : List (List Char × SavedEntry) :=
  dictSet profiles uid { device := s.device, game := s.selected_game }

/-- The `sub_load_profile` branch of `submenu_router`: look the user id up
in the profiles store (`uid in profiles` / `profiles[uid]`). -/
def sub_load_profile (profiles : List (List Char × SavedEntry)) (uid : List Char) :
    Option SavedEntry :=
  dictGet profiles uid

/-- The observable outcome of one `universal_text_router` turn, one
constructor per reply the handler can send.  `crash` models an uncaught
exception escaping the handler (no reply is sent). -/
inductive Reply where
  | passwordOk
  | passwordWrong
  | gotDevice (device : List Char)
  | dpiReprompt
  | dpiAccepted (dpi : ℤ)
  | cm360Suggestions (suggestions : List ℚ) (lines : List (ℚ × ℚ))
  | cm360Single (cm360 : ℚ) (sens : ℚ)
  | cm360Reprompt
  | problemPerf
  | problemCrash
  | problemAccount
  | problemGeneric
  | profileLoaded (device game : Option (List Char))
  | profileMissing
  | helpReply
  | gameChosen (game : List Char)
  | fallback
  | crash
  deriving DecidableEq

/-- The suggestion lookup of the `"default"` branch: catalog presets when
the device key is known, otherwise the synthesized profile's presets; the
chained `.get(game, {}).get('cm360_suggested', [])` yields `[]` when the
game key is absent. -/
def suggestedCm360 (device : List Char) (gkey : List Char) : List ℚ :=
  match catalogLookup device with
  | some p => ((dictGet p.presets gkey).map GamePreset.cm360_suggested).getD []
  | none =>
      ((dictGet (dynamic_device_profile device).presets gkey).map GamePreset.cm360_suggested).getD []

/-- The conversion loop of the `"default"` branch: convert each suggestion
with the stored DPI.  `none` models the loop raising `ZeroDivisionError`
at the first suggestion whose conversion raises. -/
def convertAll (l : List ℚ) (dpi : ℤ) : Option (List (ℚ × ℚ)) :=
  match l with
  | [] => some []
  | c :: tl =>
      match cm360_to_sensitivity c dpi 0.022 with
      | none => none
      | some v => (convertAll tl dpi).map (fun r => (c, v) :: r)

/-- `universal_text_router`: the free-text handler.  Branches in source
order: password attempt, device input, DPI input, cm/360 input, problem
description, the "load profile" and "help" text commands, the game-name
keyword scan, and the generic fallback.  The final `else` of the keyword
scan models the `KeyError` Python would raise if no inner keyword matched
while `selected_game` is unset (unreachable: every keyword of the outer
guard triggers an inner branch). -/
def universal_text_router (password : List Char) (profiles : List (List Char × SavedEntry))
    (uid : List Char) (text : List Char) (s : Session) : Session × Reply :=
  let txt := pyStrip text
  if s.awaiting_password then
    let s1 := { s with awaiting_password := false }
    if txt = password then ({ s1 with unlocked := true }, .passwordOk)
    else (s1, .passwordWrong)
  else if s.awaiting_device then
    ({ s with awaiting_device := false, device := some txt }, .gotDevice txt)
  else if s.awaiting_dpi then
    if !pyIsDigit txt then (s, .dpiReprompt)
    else ({ s with dpi := some (pyInt txt), awaiting_dpi := false, awaiting_cm360 := true },
          .dpiAccepted (pyInt txt))
  else if s.awaiting_cm360 then
    let dpi := s.dpi.getD 480
    let device := s.device.getD "Unknown device".toList
    let gkey := pyLower (pyUpper (s.selected_game.getD "unknown".toList))
    let s1 := { s with awaiting_cm360 := false }
    if pyLower txt = "default".toList then
      let suggestions := suggestedCm360 device gkey
      match convertAll suggestions dpi with
      | some lines => (s1, .cm360Suggestions suggestions lines)
      | none => (s1, .crash)
    else
      match parsePyFloat txt with
      | none => ({ s1 with awaiting_cm360 := true }, .cm360Reprompt)
      | some cm =>
          match cm360_to_sensitivity cm dpi 0.022 with
          | some v => (s1, .cm360Single cm v)
          | none => ({ s1 with awaiting_cm360 := true }, .cm360Reprompt)
  else if s.awaiting_problem then
    let s1 := { s with awaiting_problem := false }
    let desc := pyLower txt
    if ["lag".toList, "fps".toList, "frame".toList, "stutter".toList].any
        (fun k => strContains desc k) then (s1, .problemPerf)
    else if ["crash".toList, "closing".toList, "force close".toList, "stopped".toList].any
        (fun k => strContains desc k) then (s1, .problemCrash)
    else if ["login".toList, "auth".toList, "account".toList, "ban".toList].any
        (fun k => strContains desc k) then (s1, .problemAccount)
    else (s1, .problemGeneric)
  else if "load profile".toList.isPrefixOf (pyLower txt) then
    match sub_load_profile profiles uid with
    | some e => ({ s with device := e.device, selected_game := e.game },
                 .profileLoaded e.device e.game)
    | none => (s, .profileMissing)
  else if "help".toList.isPrefixOf (pyLower txt) then (s, .helpReply)
  else
    let lowered := pyLower txt
    if ["free fire".toList, "freefire".toList, "ff".toList, "bgmi".toList, "pubg".toList,
        "cod".toList, "call of duty".toList].any (fun k => strContains lowered k) then
      let s1 :=
        if strContains lowered "free".toList || strContains lowered "freefire".toList ||
            strContains lowered "ff".toList then
          { s with selected_game := some "freefire".toList }
        else if strContains lowered "bgmi".toList || strContains lowered "pubg".toList then
          { s with selected_game := some "bgmi".toList }
        else if strContains lowered "cod".toList || strContains lowered "call of duty".toList then
          { s with selected_game := some "cod".toList }
        else s
      match s1.selected_game with
      | some g => ({ s1 with awaiting_device := true }, .gameChosen g)
      | none => (s1, .crash)
    else (s, .fallback)

/-- Acceptance predicate of claim C2, following the spec's words: the
input parses as a positive integer. -/
def spec_parsesPositiveInt (t : List Char) : Bool := pyIsDigit t && decide (0 < pyInt t)

/-- The completeness property of claim C4: the profile has a preset entry
for each of the three supported game ids, each with a non-empty cm/360
suggestion list. -/
def presetsComplete (p : DeviceProfile) : Bool :=
  gameIds.all fun g =>
    match dictGet p.presets g with
    | some pr => !pr.cm360_suggested.isEmpty
    | none => false

/-- A concrete session sitting in the AwaitingDpi state. -/
def dpiSession : Session :=
  { awaiting_password := false, awaiting_device := false, awaiting_dpi := true,
    awaiting_cm360 := false, awaiting_problem := false, unlocked := false,
    selected_game := some "bgmi".toList, device := some "Poco X3".toList, dpi := none }

/-- A concrete session sitting in the AwaitingCm360 state with a stored
DPI of 0 (reachable: the DPI prompt accepts the digit string "0"). -/
def cm360SessionZeroDpi : Session :=
  { awaiting_password := false, awaiting_device := false, awaiting_dpi := false,
    awaiting_cm360 := true, awaiting_problem := false, unlocked := false,
    selected_game := some "bgmi".toList, device := some "Poco X3".toList, dpi := some 0 }

/-- A concrete session sitting in the AwaitingCm360 state with DPI 480. -/
def cm360Session480 : Session :=
  { awaiting_password := false, awaiting_device := false, awaiting_dpi := false,
    awaiting_cm360 := true, awaiting_problem := false, unlocked := false,
    selected_game := some "bgmi".toList, device := some "Poco X3".toList, dpi := some 480 }

/-- A concrete session sitting in the AwaitingProblemDescription state. -/
def problemSession : Session :=
  { awaiting_password := false, awaiting_device := false, awaiting_dpi := false,
    awaiting_cm360 := false, awaiting_problem := true, unlocked := false,
    selected_game := some "bgmi".toList, device := some "Poco X3".toList, dpi := some 480 }

/-- Rounding zero gives zero. -/
theorem pyRound4_zero : pyRound4 0 = 0 := by with_unfolding_all rfl

/-- For a positive cm/360 and a nonzero DPI the converter takes the
division branch and returns the rounded formula value. -/
theorem convert_pos_ne (c : ℚ) (hc : 0 < c) (d : ℤ) (hd : d ≠ 0) (scale : ℚ) :
    cm360_to_sensitivity c d scale
      = some (pyRound4 (360 / (c * 0.393701 * (d : ℚ)) * scale)) := by
  have hin : (0 : ℚ) < c * 0.393701 := by nlinarith
  have hne : c * 0.393701 * (d : ℚ) ≠ 0 :=
    mul_ne_zero (ne_of_gt hin) (Int.cast_ne_zero.mpr hd)
  simp [cm360_to_sensitivity, hin, hne]

/-- The conversion loop succeeds on a list of positive suggestions when
the stored DPI is nonzero. -/
theorem convertAll_pos (d : ℤ) (hd : d ≠ 0) (l : List ℚ) (hl : ∀ c ∈ l, 0 < c) :
    convertAll l d
      = some (l.map fun c => (c, pyRound4 (360 / (c * 0.393701 * (d : ℚ)) * 0.022))) := by
  induction l with
  | nil => simp [convertAll]
  | cons c tl ih =>
      rw [convertAll, convert_pos_ne c (hl c (List.mem_cons_self c tl)) d hd,
        ih (fun x hx => hl x (List.mem_cons_of_mem c hx))]
      simp

/-- Looking up the key just written by `dictSet` returns the new entry. -/
theorem dictGet_dictSet_self (l : List (List Char × SavedEntry)) (k : List Char) (e : SavedEntry) :
    dictGet (dictSet l k e) k = some e := by
  induction l with
  | nil => simp [dictSet, dictGet]
  | cons hd tl ih =>
      obtain ⟨k1, v⟩ := hd
      by_cases h : k1 = k
      · simp [dictSet, dictGet, h]
      · simp [dictSet, dictGet, h, ih]

/-- `dictSet` leaves every other key's binding unchanged. -/
theorem dictGet_dictSet_ne (l : List (List Char × SavedEntry)) (k k2 : List Char)
    (e : SavedEntry) (h : k2 ≠ k) :
    dictGet (dictSet l k e) k2 = dictGet l k2 := by
  induction l with
  | nil =>
      have hkk : ¬ k = k2 := fun hh => h hh.symm
      simp [dictSet, dictGet, hkk]
  | cons hd tl ih =>
      obtain ⟨k1, v⟩ := hd
      by_cases h1 : k1 = k
      · subst h1
        have hkk : ¬ k1 = k2 := fun hh => h hh.symm
        simp [dictSet, dictGet, hkk]
      · simp [dictSet, dictGet, h1, ih]

/-- C5 (amended): the converter computes inches = cm360 × 0.393701,
raw = 360 / (inches × dpi), sensitivity = round(raw × gameScale, 4), and
on the worked example convert(30, 480) with the default gameScale 0.022
returns 0.0014. -/
theorem c5_conversion_formula (cm360 : ℚ) (dpi : ℤ) (scale : ℚ)
    (h1 : 0 < cm360) (h2 : dpi ≠ 0) :
    cm360_to_sensitivity cm360 dpi scale
      = some (pyRound4 (360 / (cm360 * 0.393701 * (dpi : ℚ)) * scale))
    ∧ cm360_to_sensitivity 30 480 0.022 = some 0.0014 :=
  ⟨convert_pos_ne cm360 h1 dpi h2 scale, by with_unfolding_all rfl⟩

/-- C5 witness: the formula instance at the worked example. -/
theorem c5_conversion_formula_witness :
    cm360_to_sensitivity 30 480 0.022
      = some (pyRound4 (360 / ((30 : ℚ) * 0.393701 * (480 : ℚ)) * 0.022)) :=
  (c5_conversion_formula 30 480 0.022 (by norm_num) (by norm_num)).1

/-- C5 counterexample: convert(30, 480) returns 0.0014 after rounding to
four decimal places, not 0.0013 as the claim states. -/
theorem c5_worked_example_counterexample :
    cm360_to_sensitivity 30 480 0.022 = some 0.0014 ∧ (0.0014 : ℚ) ≠ 0.0013 :=
  ⟨by with_unfolding_all rfl, by norm_num⟩

/-- C6: for every cm360 ≤ 0 the converter takes the guard branch and
returns 0 (modelled total: no exception is raised). -/
theorem c6_nonpos_guard (cm360 : ℚ) (h : cm360 ≤ 0) (dpi : ℤ) (scale : ℚ) :
    cm360_to_sensitivity cm360 dpi scale = some 0 := by
  have hle : cm360 * (0.393701 : ℚ) ≤ 0 := by nlinarith
  have hin : ¬ (0 : ℚ) < cm360 * 0.393701 := not_lt.mpr hle
  simp [cm360_to_sensitivity, hin, pyRound4_zero]

/-- C6 witness: convert(0, 480) returns 0. -/
theorem c6_nonpos_guard_witness : cm360_to_sensitivity 0 480 0.022 = some 0 :=
  c6_nonpos_guard 0 le_rfl 480 0.022

/-- C10: the zero-division guard only tests the cm360-derived inches
value: at cm360 = 30 and dpi = 0 the converter raises ZeroDivisionError
(modelled as `none`), and dpi = 0 is reachable from the public interface
because the AwaitingDpi digit check accepts the string "0" and stores 0. -/
theorem c10_dpi_zero_division :
    cm360_to_sensitivity 30 0 0.022 = none
    ∧ pyIsDigit (pyStrip "0".toList) = true
    ∧ universal_text_router "1234".toList [] "7".toList "0".toList dpiSession
        = ({ dpiSession with dpi := some 0, awaiting_dpi := false, awaiting_cm360 := true },
           Reply.dpiAccepted 0) :=
  ⟨by with_unfolding_all rfl, by decide, by with_unfolding_all rfl⟩

/-- C8: loading the profile store is total and returns the empty mapping
both when the backing file is missing and when its contents fail to
parse as JSON. -/
theorem c8_load_profiles_fallback
    (parseJson : List Char → Option (List (List Char × SavedEntry)))
    (contents : List Char) (hfail : parseJson contents = none) :
    load_profiles none parseJson = [] ∧ load_profiles (some contents) parseJson = [] := by
  constructor
  · rfl
  · simp [load_profiles, hfail]

/-- C8 witness: a concrete missing file and a concrete unparsable file. -/
theorem c8_load_profiles_fallback_witness :
    load_profiles none (fun _ => none) = []
    ∧ load_profiles (some "not a json dict".toList) (fun _ => none) = [] :=
  c8_load_profiles_fallback (fun _ => none) "not a json dict".toList rfl

/-- C7: saving a device/game pair for a user and loading that user
returns exactly that pair (last-write-wins over any previous store
contents); saves for other users do not affect the user's lookup, and a
user id absent from the store loads as not-found. -/
theorem c7_profile_roundtrip (profiles : List (List Char × SavedEntry))
    (uid uid2 : List Char) (s : Session) (d g : List Char)
    (hdev : s.device = some d) (hgame : s.selected_game = some g) (hne : uid2 ≠ uid) :
    sub_load_profile (sub_save_profile profiles uid s) uid
      = some { device := some d, game := some g }
    ∧ sub_load_profile (sub_save_profile profiles uid s) uid2 = sub_load_profile profiles uid2
    ∧ sub_load_profile [] uid = none := by
  refine ⟨?_, ?_, rfl⟩
  · rw [sub_save_profile, sub_load_profile, dictGet_dictSet_self, hdev, hgame]
  · rw [sub_save_profile, sub_load_profile, sub_load_profile, dictGet_dictSet_ne _ _ _ _ hne]

/-- C7 witness: a concrete save/load round trip. -/
theorem c7_profile_roundtrip_witness :
    sub_load_profile (sub_save_profile [] "7".toList dpiSession) "7".toList
      = some { device := some "Poco X3".toList, game := some "bgmi".toList }
    ∧ sub_load_profile (sub_save_profile [] "7".toList dpiSession) "8".toList
      = sub_load_profile [] "8".toList
    ∧ sub_load_profile [] "7".toList = none :=
  c7_profile_roundtrip [] "7".toList "8".toList dpiSession "Poco X3".toList "bgmi".toList
    rfl rfl (by decide)

/-- C2 (amended): in the AwaitingDpi state a free-text input is accepted
if and only if its trimmed form is a non-empty string of digits (Python
`isdigit`, i.e. it parses as a non-negative integer — "0" included): on
success the dpi value is stored, AwaitingDpi is cleared and AwaitingCm360
is set; on any other input the session is returned unchanged (stored dpi
included) with a re-prompt. -/
theorem c2_awaiting_dpi_behaviour (pw : List Char)
    (profiles : List (List Char × SavedEntry)) (uid text : List Char) (s : Session)
    (h1 : s.awaiting_password = false) (h2 : s.awaiting_device = false)
    (h3 : s.awaiting_dpi = true) :
    (pyIsDigit (pyStrip text) = true →
      universal_text_router pw profiles uid text s
        = ({ s with dpi := some (pyInt (pyStrip text)),
                    awaiting_dpi := false, awaiting_cm360 := true },
           Reply.dpiAccepted (pyInt (pyStrip text))))
    ∧ (pyIsDigit (pyStrip text) = false →
      universal_text_router pw profiles uid text s = (s, Reply.dpiReprompt)) := by
  constructor <;> intro hdig <;> simp [universal_text_router, h1, h2, h3, hdig]

/-- C2 witness: "480" is accepted and stored, "12.5" is rejected with a
re-prompt and an unchanged session. -/
theorem c2_awaiting_dpi_witness :
    universal_text_router "1234".toList [] "7".toList "480".toList dpiSession
      = ({ dpiSession with dpi := some 480, awaiting_dpi := false, awaiting_cm360 := true },
         Reply.dpiAccepted 480)
    ∧ universal_text_router "1234".toList [] "7".toList "12.5".toList dpiSession
      = (dpiSession, Reply.dpiReprompt) := by
  have h := c2_awaiting_dpi_behaviour "1234".toList [] "7".toList "480".toList dpiSession
    rfl rfl rfl
  have h2 := c2_awaiting_dpi_behaviour "1234".toList [] "7".toList "12.5".toList dpiSession
    rfl rfl rfl
  exact ⟨(h.1 (by decide)).trans (by with_unfolding_all rfl), h2.2 (by decide)⟩

/-- C2 counterexample: the digit check accepts the string "0", which does
not parse as a positive integer, so acceptance is not equivalent to
parsing as a positive integer. -/
theorem c2_zero_accepted_counterexample :
    spec_parsesPositiveInt (pyStrip "0".toList) = false
    ∧ universal_text_router "1234".toList [] "9".toList "0".toList
        { dpiSession with device := some ("iPhone 12".toList) }
        = ({ dpiSession with
               device := some ("iPhone 12".toList), dpi := some 0,
               awaiting_dpi := false, awaiting_cm360 := true },
           Reply.dpiAccepted 0) :=
  ⟨by decide, by with_unfolding_all rfl⟩

/-- C9: in the AwaitingProblemDescription state the reply is classified
by keyword groups, first matching group wins, in the order performance,
crash, account, generic — and the awaiting flag is cleared in every
case. -/
theorem c9_problem_classification (pw : List Char)
    (profiles : List (List Char × SavedEntry)) (uid text : List Char) (s : Session)
    (h1 : s.awaiting_password = false) (h2 : s.awaiting_device = false)
    (h3 : s.awaiting_dpi = false) (h4 : s.awaiting_cm360 = false)
    (h5 : s.awaiting_problem = true) :
    universal_text_router pw profiles uid text s
      = ({ s with awaiting_problem := false },
         if ["lag".toList, "fps".toList, "frame".toList, "stutter".toList].any
             (fun k => strContains (pyLower (pyStrip text)) k) then Reply.problemPerf
         else if ["crash".toList, "closing".toList, "force close".toList, "stopped".toList].any
             (fun k => strContains (pyLower (pyStrip text)) k) then Reply.problemCrash
         else if ["login".toList, "auth".toList, "account".toList, "ban".toList].any
             (fun k => strContains (pyLower (pyStrip text)) k) then Reply.problemAccount
         else Reply.problemGeneric) := by
  simp [universal_text_router, h1, h2, h3, h4, h5]
  split_ifs <;> rfl

/-- C9 witness: a description containing "fps" classifies as performance
guidance and clears the awaiting flag. -/
theorem c9_problem_classification_witness :
    universal_text_router "1234".toList [] "7".toList "fps drops after 10 min".toList
      problemSession
      = ({ problemSession with awaiting_problem := false }, Reply.problemPerf) := by
  have h := c9_problem_classification "1234".toList [] "7".toList
    "fps drops after 10 min".toList problemSession rfl rfl rfl rfl rfl
  exact h.trans (by decide)

/-- Any successful catalog lookup yields one of the three table entries. -/
theorem catalogLookup_cases (name : List Char) (p : DeviceProfile)
    (h : catalogLookup name = some p) :
    p = poco_x3 ∨ p = iphone_12 ∨ p = oneplus_9 := by
  simp only [catalogLookup, DEVICES, dictGet] at h
  split_ifs at h <;> simp_all

/-- C3: the synthesizer lowercases the device name and classifies by
substring membership with first-match-wins precedence — a low-tier token
gives ramTier 2 / cpuTier low, otherwise a high-tier token gives
ramTier 8 / cpuTier high, otherwise ramTier 4 / cpuTier mid — and every
preset's base DPI is 360 / 560 / 480 respectively. -/
theorem c3_tier_classification (name : List Char) :
    (lowTierHit (pyLower name) = true →
      (dynamic_device_profile name).ram_gb = 2
      ∧ (dynamic_device_profile name).cpu_tier = "low".toList
      ∧ (dynamic_device_profile name).presets.map (fun pr => pr.2.dpi) = [360, 360, 360])
    ∧ (lowTierHit (pyLower name) = false → highTierHit (pyLower name) = true →
      (dynamic_device_profile name).ram_gb = 8
      ∧ (dynamic_device_profile name).cpu_tier = "high".toList
      ∧ (dynamic_device_profile name).presets.map (fun pr => pr.2.dpi) = [560, 560, 560])
    ∧ (lowTierHit (pyLower name) = false → highTierHit (pyLower name) = false →
      (dynamic_device_profile name).ram_gb = 4
      ∧ (dynamic_device_profile name).cpu_tier = "mid".toList
      ∧ (dynamic_device_profile name).presets.map (fun pr => pr.2.dpi) = [480, 480, 480]) := by
  refine ⟨fun h1 => ?_, fun h1 h2 => ?_, fun h1 h2 => ?_⟩
  · simp [dynamic_device_profile, h1]
  · simp [dynamic_device_profile, h1, h2]
  · simp [dynamic_device_profile, h1, h2]

/-- C3 witness: "lite pro" contains both a low-tier token ("lite") and a
high-tier token ("pro") and classifies as low-tier with base DPI 360. -/
theorem c3_tier_classification_witness :
    (dynamic_device_profile ("lite pro".toList)).ram_gb = 2
    ∧ (dynamic_device_profile ("lite pro".toList)).cpu_tier = "low".toList
    ∧ (dynamic_device_profile ("lite pro".toList)).presets.map (fun pr => pr.2.dpi)
        = [360, 360, 360] :=
  (c3_tier_classification ("lite pro".toList)).1 (by decide)

/-- C4: every catalog profile (under trimmed, lowercased matching) and
every synthesized profile has a preset entry for each of the three game
ids, each with a non-empty cm/360 suggestion list. -/
theorem c4_presets_complete :
    (∀ name p, catalogLookup name = some p → presetsComplete p = true)
    ∧ (∀ name, presetsComplete (dynamic_device_profile name) = true) := by
  constructor
  · intro name p hp
    rcases catalogLookup_cases name p hp with rfl | rfl | rfl <;> decide
  · intro name
    cases h1 : lowTierHit (pyLower name) <;> cases h2 : highTierHit (pyLower name) <;>
      simp [presetsComplete, dynamic_device_profile, h1, h2] <;> decide

/-- C4 witness: the catalog entry for "  POCO X3 " (matched after
trimming and lowercasing) and the synthesized profile of an unknown
device are both complete. -/
theorem c4_presets_complete_witness :
    catalogLookup ("  POCO X3 ".toList) = some poco_x3
    ∧ presetsComplete poco_x3 = true
    ∧ presetsComplete (dynamic_device_profile ("Mystery Phone".toList)) = true :=
  ⟨by decide, c4_presets_complete.1 ("  POCO X3 ".toList) poco_x3 (by decide),
   c4_presets_complete.2 ("Mystery Phone".toList)⟩

/-- Uppercasing then lowercasing a supported game id is the identity (the
cm/360 branch computes its lookup key as `selected_game.upper().lower()`). -/
theorem gameKey_upper_lower (g : List Char) (hg : g ∈ gameIds) :
    pyLower (pyUpper g) = g := by
  simp only [gameIds, List.mem_cons, List.not_mem_nil, or_false] at hg
  rcases hg with rfl | rfl | rfl <;> decide

/-- Every cm/360 suggestion produced for a supported game, by the catalog
or by the synthesizer, is positive. -/
theorem suggestedCm360_pos (dev g : List Char) (hg : g ∈ gameIds) :
    ∀ c ∈ suggestedCm360 dev g, 0 < c := by
  have hg2 : g = "freefire".toList ∨ g = "bgmi".toList ∨ g = "cod".toList := by
    simpa [gameIds] using hg
  cases hcat : catalogLookup dev with
  | some p =>
      rcases catalogLookup_cases dev p hcat with rfl | rfl | rfl <;>
        rcases hg2 with rfl | rfl | rfl <;>
          simp [suggestedCm360, hcat, poco_x3, iphone_12, oneplus_9, dictGet]
  | none =>
      rcases hg2 with rfl | rfl | rfl <;>
        cases h1 : lowTierHit (pyLower dev) <;> cases h2 : highTierHit (pyLower dev) <;>
          simp [suggestedCm360, hcat, dynamic_device_profile, dictGet, h1, h2]

/-- C1 (amended): in the AwaitingCm360 state with a device, a supported
game and a nonzero stored DPI, the input "default" (case-insensitive)
clears the awaiting flag and returns the device's suggested cm/360 list
(catalog when the trimmed lowercased device name is known, else the
synthesizer) with each suggestion converted via the sensitivity formula
at the stored DPI; any other input parsing as a positive number clears
the flag and returns the single converted sensitivity; unparsable input
re-prompts and leaves the session in AwaitingCm360. -/
theorem c1_awaiting_cm360_behaviour (pw : List Char)
    (profiles : List (List Char × SavedEntry)) (uid text : List Char) (s : Session)
    (d : ℤ) (dev g : List Char)
    (h1 : s.awaiting_password = false) (h2 : s.awaiting_device = false)
    (h3 : s.awaiting_dpi = false) (h4 : s.awaiting_cm360 = true)
    (hdev : s.device = some dev) (hgame : s.selected_game = some g) (hg : g ∈ gameIds)
    (hdpi : s.dpi = some d) (hd : d ≠ 0) :
    (pyLower (pyStrip text) = "default".toList →
      universal_text_router pw profiles uid text s
        = ({ s with awaiting_cm360 := false },
           Reply.cm360Suggestions (suggestedCm360 dev g)
             ((suggestedCm360 dev g).map
               (fun c => (c, pyRound4 (360 / (c * 0.393701 * (d : ℚ)) * 0.022))))))
    ∧ (∀ c ∈ suggestedCm360 dev g,
        cm360_to_sensitivity c d 0.022
          = some (pyRound4 (360 / (c * 0.393701 * (d : ℚ)) * 0.022)))
    ∧ (∀ q : ℚ, pyLower (pyStrip text) ≠ "default".toList →
        parsePyFloat (pyStrip text) = some q → 0 < q →
        universal_text_router pw profiles uid text s
          = ({ s with awaiting_cm360 := false },
             Reply.cm360Single q (pyRound4 (360 / (q * 0.393701 * (d : ℚ)) * 0.022))))
    ∧ (pyLower (pyStrip text) ≠ "default".toList → parsePyFloat (pyStrip text) = none →
        universal_text_router pw profiles uid text s
          = ({ s with awaiting_cm360 := true }, Reply.cm360Reprompt)) := by
  have hgk : pyLower (pyUpper g) = g := gameKey_upper_lower g hg
  have hpos := suggestedCm360_pos dev g hg
  refine ⟨fun hdef => ?_, fun c hc => convert_pos_ne c (hpos c hc) d hd 0.022,
          fun q hndef hq hqpos => ?_, fun hndef hnone => ?_⟩
  · simp [universal_text_router, h1, h2, h3, h4, hdev, hgame, hdpi, hgk, hdef,
      convertAll_pos d hd _ hpos]
  · have hndef2 : ¬ pyLower (pyStrip text) = ['d', 'e', 'f', 'a', 'u', 'l', 't'] := by
      simpa using hndef
    simp [universal_text_router, h1, h2, h3, h4, hdev, hgame, hdpi, hgk, hndef2, hq,
      convert_pos_ne q hqpos d hd 0.022]
  · have hndef2 : ¬ pyLower (pyStrip text) = ['d', 'e', 'f', 'a', 'u', 'l', 't'] := by
      simpa using hndef
    simp [universal_text_router, h1, h2, h3, h4, hdev, hgame, hdpi, hgk, hndef2, hnone]

/-- C1 witness: with device "Poco X3", game bgmi and stored DPI 480,
"default" returns the catalog's bgmi suggestions [30, 35, 40] each
converted (0.0014, 0.0012, 0.001), "30" returns the single converted
sensitivity 0.0014, and "abc" re-prompts leaving the session awaiting
cm/360. -/
theorem c1_awaiting_cm360_witness :
    universal_text_router "1234".toList [] "7".toList "default".toList cm360Session480
      = ({ cm360Session480 with awaiting_cm360 := false },
         Reply.cm360Suggestions [30, 35, 40]
           [(30, 7 / 5000), (35, 3 / 2500), (40, 1 / 1000)])
    ∧ universal_text_router "1234".toList [] "7".toList "30".toList cm360Session480
      = ({ cm360Session480 with awaiting_cm360 := false }, Reply.cm360Single 30 (7 / 5000))
    ∧ universal_text_router "1234".toList [] "7".toList "abc".toList cm360Session480
      = ({ cm360Session480 with awaiting_cm360 := true }, Reply.cm360Reprompt) := by
  have hd := c1_awaiting_cm360_behaviour "1234".toList [] "7".toList "default".toList
    cm360Session480 480 ("Poco X3".toList) ("bgmi".toList) rfl rfl rfl rfl rfl rfl
    (by decide) rfl (by norm_num)
  have hs := c1_awaiting_cm360_behaviour "1234".toList [] "7".toList "30".toList
    cm360Session480 480 ("Poco X3".toList) ("bgmi".toList) rfl rfl rfl rfl rfl rfl
    (by decide) rfl (by norm_num)
  have hr := c1_awaiting_cm360_behaviour "1234".toList [] "7".toList "abc".toList
    cm360Session480 480 ("Poco X3".toList) ("bgmi".toList) rfl rfl rfl rfl rfl rfl
    (by decide) rfl (by norm_num)
  refine ⟨(hd.1 (by decide)).trans ?_,
          (hs.2.2.1 30 (by decide) (by with_unfolding_all rfl) (by norm_num)).trans ?_,
          hr.2.2.2 (by decide) (by with_unfolding_all rfl)⟩
  · with_unfolding_all rfl
  · with_unfolding_all rfl

/-- C1 counterexample: in an AwaitingCm360 session whose stored DPI is 0
(reachable because the DPI prompt accepts "0"), the input "30" parses as
a positive number yet the conversion's ZeroDivisionError is caught and
the session is re-prompted, still in AwaitingCm360, instead of clearing
the flag and returning a sensitivity; the "default" branch of the same
session crashes outright. -/
theorem c1_zero_dpi_counterexample :
    parsePyFloat (pyStrip "30".toList) = some 30 ∧ (0 : ℚ) < 30
    ∧ universal_text_router "1234".toList [] "7".toList "30".toList cm360SessionZeroDpi
        = (cm360SessionZeroDpi, Reply.cm360Reprompt)
    ∧ universal_text_router "1234".toList [] "7".toList "default".toList cm360SessionZeroDpi
        = ({ cm360SessionZeroDpi with awaiting_cm360 := false }, Reply.crash) :=
  ⟨by with_unfolding_all rfl, by norm_num, by with_unfolding_all rfl,
   by with_unfolding_all rfl⟩
